import Mathlib

/-!
Verification of the langextract-api repository's provider-routing,
extraction-orchestration, result-normalization and job-tracking logic.

The Python sources are shallowly embedded: pure helpers become Lean
functions, the stateful job lifecycle becomes explicit state passing,
Python floats that only ever hold small exact decimals are modelled as
rationals, and fallible steps are modelled with `Except`.
-/

/- ===== Python string primitives ===== -/

/-- `charsStartWith needle hay` embeds Python's `hay.startswith(needle)`
on character lists. -/
def charsStartWith : List Char → List Char → Bool
  | [], _ => true
  | _ :: _, [] => false
  | a :: as, b :: bs => a == b && charsStartWith as bs

/-- `charsContain needle hay` embeds Python's `needle in hay`
(contiguous-substring test) on character lists. -/
def charsContain (needle : List Char) : List Char → Bool
  | [] => needle.isEmpty
  | b :: bs => charsStartWith needle (b :: bs) || charsContain needle bs

/-- Python `needle in hay` for strings. -/
def strContains (hay needle : String) : Bool :=
  charsContain needle.data hay.data

/-- Python `s.startswith(p)`. -/
def strStartsWith (s p : String) : Bool :=
  charsStartWith p.data s.data

/-- Python `s.lower()` (ASCII case mapping, which is what every model
identifier in this repository uses). -/
def strLower (s : String) : String :=
  ⟨s.data.map Char.toLower⟩

/- ===== Provider resolvers (the repository has three implementations) ===== -/

/-- Embedding of `determine_provider` from `api/main.py` (lines 278-292).
Substring checks run on the lowercased identifier; the `@cf/` check runs
on the original identifier, exactly as in the source. -/
def determine_provider (model_id : String) : String :=
  if strContains (strLower model_id) "gpt" || strContains (strLower model_id) "openai" then
    "openai"
  else if strContains (strLower model_id) "gemini" || strContains (strLower model_id) "palm" then
    "gemini"
  else if strStartsWith model_id "@cf/" then
    "cloudflare"
  else if strContains (strLower model_id) "llama" || strContains (strLower model_id) "mistral"
      || strContains (strLower model_id) "tinyllama" || strContains (strLower model_id) "codellama" then
    "ollama"
  else
    "ollama"

/-- Embedding of `ExtractionService._get_provider_from_model` from
`api/extraction_service.py` (lines 219-228). -/
def get_provider_from_model (model_id : String) : String :=
  if strStartsWith model_id "gpt-" || strStartsWith model_id "text-" then
    "openai"
  else if strStartsWith model_id "gemini-" then
    "gemini"
  else if strContains model_id ":" then
    "ollama"
  else
    "gemini"

/-- Embedding of the provider branch of `Settings.get_model_config` from
`api/config.py` (lines 180-187); same rules as the service resolver. -/
def get_model_config_provider (model_id : String) : String :=
  if strStartsWith model_id "gpt-" || strStartsWith model_id "text-" then
    "openai"
  else if strStartsWith model_id "gemini-" then
    "gemini"
  else if strContains model_id ":" then
    "ollama"
  else
    "gemini"

/- ===== Case-mapping lemmas ===== -/

theorem char_toNat_ofNat_of_lt {n : Nat} (h : n < 55296) : (Char.ofNat n).toNat = n := by
  unfold Char.ofNat
  rw [dif_pos (Or.inl h)]
  rfl

theorem char_toLower_eq_self (c : Char) (h : ¬(c.toNat ≥ 65 ∧ c.toNat ≤ 90)) :
    Char.toLower c = c := by
  simp only [Char.toLower]
  rw [if_neg h]

theorem char_toLower_not_upper (c : Char) :
    ¬((Char.toLower c).toNat ≥ 65 ∧ (Char.toLower c).toNat ≤ 90) := by
  simp only [Char.toLower]
  by_cases h : c.toNat ≥ 65 ∧ c.toNat ≤ 90
  · rw [if_pos h, char_toNat_ofNat_of_lt (by omega)]
    omega
  · rw [if_neg h]
    exact h

theorem char_toLower_idem (c : Char) : Char.toLower (Char.toLower c) = Char.toLower c :=
  char_toLower_eq_self _ (char_toLower_not_upper c)

theorem strLower_idem (s : String) : strLower (strLower s) = strLower s := by
  simp [strLower, List.map_map, Function.comp_def, char_toLower_idem]

/- ===== C1 ===== -/

/-- C1 counterexample: the claim quantifies over "every implementation of the
resolver in the repository", but the resolver in `extraction_service.py`
(and the identical one in `config.py`) has no edge-inference rule, so the
cloudflare example identifier resolves to the default `gemini` there,
not to the edge-inference (cloudflare) tag. -/
theorem service_resolver_cf_model_counterexample :
    get_provider_from_model "@cf/meta/llama-3.3-70b-instruct-fp8-fast" = "gemini" ∧
    get_model_config_provider "@cf/meta/llama-3.3-70b-instruct-fp8-fast" = "gemini" ∧
    ("gemini" : String) ≠ "cloudflare" := by
  refine ⟨by decide, by decide, by decide⟩

/-- C1 (amended): `determine_provider` in `main.py` resolves all four example
identifiers as the claim states; the resolver shared by
`extraction_service.py` and `config.py` resolves the first three as stated
but sends the `@cf/` identifier to its default `gemini`, since it has no
edge-inference rule. -/
theorem resolver_examples_all_implementations :
    determine_provider "gpt-4o-mini" = "openai" ∧
    determine_provider "gemini-2.5-flash" = "gemini" ∧
    determine_provider "llama3.2:1b" = "ollama" ∧
    determine_provider "@cf/meta/llama-3.3-70b-instruct-fp8-fast" = "cloudflare" ∧
    get_provider_from_model "gpt-4o-mini" = "openai" ∧
    get_provider_from_model "gemini-2.5-flash" = "gemini" ∧
    get_provider_from_model "llama3.2:1b" = "ollama" ∧
    get_provider_from_model "@cf/meta/llama-3.3-70b-instruct-fp8-fast" = "gemini" ∧
    get_model_config_provider "gpt-4o-mini" = "openai" ∧
    get_model_config_provider "gemini-2.5-flash" = "gemini" ∧
    get_model_config_provider "llama3.2:1b" = "ollama" ∧
    get_model_config_provider "@cf/meta/llama-3.3-70b-instruct-fp8-fast" = "gemini" := by
  decide

/- ===== C2 ===== -/

/-- C2 counterexample: `"somemodel"` matches none of the openai, gemini, or
edge-inference rules of either resolver, yet the service resolver returns
its default `gemini`, not `ollama`. -/
theorem service_resolver_default_counterexample :
    strStartsWith "somemodel" "gpt-" = false ∧
    strStartsWith "somemodel" "text-" = false ∧
    strStartsWith "somemodel" "gemini-" = false ∧
    strContains "somemodel" ":" = false ∧
    strContains (strLower "somemodel") "gpt" = false ∧
    strContains (strLower "somemodel") "openai" = false ∧
    strContains (strLower "somemodel") "gemini" = false ∧
    strContains (strLower "somemodel") "palm" = false ∧
    strStartsWith "somemodel" "@cf/" = false ∧
    get_provider_from_model "somemodel" ≠ "ollama" := by
  decide

/-- C2 (amended): both resolvers are total (they always return one of the
fixed provider tags, never failing); `determine_provider` in `main.py`
returns `ollama` for every identifier matching none of its openai, gemini,
or edge-inference rules, but the resolver in `extraction_service.py`
defaults to `gemini` instead: identifiers matching none of its openai and
gemini rules resolve to `ollama` only when they contain a colon, and to
`gemini` otherwise. -/
theorem resolver_totality_and_defaults (s t : String)
    (h1 : strContains (strLower s) "gpt" = false)
    (h2 : strContains (strLower s) "openai" = false)
    (h3 : strContains (strLower s) "gemini" = false)
    (h4 : strContains (strLower s) "palm" = false)
    (h5 : strStartsWith s "@cf/" = false)
    (h6 : strStartsWith t "gpt-" = false)
    (h7 : strStartsWith t "text-" = false)
    (h8 : strStartsWith t "gemini-" = false)
    (h9 : strContains t ":" = false) :
    determine_provider s = "ollama" ∧
    get_provider_from_model t = "gemini" ∧
    (∀ u : String,
      determine_provider u = "openai" ∨ determine_provider u = "gemini" ∨
      determine_provider u = "cloudflare" ∨ determine_provider u = "ollama") ∧
    (∀ u : String,
      get_provider_from_model u = "openai" ∨ get_provider_from_model u = "gemini" ∨
      get_provider_from_model u = "ollama") := by
  refine ⟨?_, ?_, ?_, ?_⟩
  · simp [determine_provider, h1, h2, h3, h4, h5]
  · simp [get_provider_from_model, h6, h7, h8, h9]
  · intro u
    unfold determine_provider
    split
    · exact Or.inl rfl
    · split
      · exact Or.inr (Or.inl rfl)
      · split
        · exact Or.inr (Or.inr (Or.inl rfl))
        · split
          · exact Or.inr (Or.inr (Or.inr rfl))
          · exact Or.inr (Or.inr (Or.inr rfl))
  · intro u
    unfold get_provider_from_model
    split
    · exact Or.inl rfl
    · split
      · exact Or.inr (Or.inl rfl)
      · split
        · exact Or.inr (Or.inr rfl)
        · exact Or.inr (Or.inl rfl)

/-- C2 witness: the amended totality/default theorem applied to the
concrete unknown identifier `"zzz"`. -/
theorem resolver_totality_and_defaults_witness :
    determine_provider "zzz" = "ollama" ∧ get_provider_from_model "zzz" = "gemini" := by
  have h := resolver_totality_and_defaults "zzz" "zzz"
    (by decide) (by decide) (by decide) (by decide) (by decide)
    (by decide) (by decide) (by decide) (by decide)
  exact ⟨h.1, h.2.1⟩

/- ===== C8 ===== -/

/-- C8 counterexample: `determine_provider` lowercases the identifier for
its substring rules but tests the `@cf/` prefix on the original string, so
`"@CF/x"` resolves to `ollama` while its lowercase form `"@cf/x"` resolves
to `cloudflare`. -/
theorem resolver_case_counterexample :
    strLower "@CF/x" = "@cf/x" ∧
    determine_provider "@CF/x" = "ollama" ∧
    determine_provider (strLower "@CF/x") = "cloudflare" ∧
    determine_provider "@CF/x" ≠ determine_provider (strLower "@CF/x") := by
  decide

/-- C8 (amended): provider resolution is case-insensitive except for the
edge-inference rule, whose `@cf/` prefix test runs case-sensitively on the
original identifier: whenever that prefix test gives the same answer on an
identifier and on its lowercase form, the two resolve identically. -/
theorem resolver_case_insensitive_amended (s : String)
    (h : strStartsWith s "@cf/" = strStartsWith (strLower s) "@cf/") :
    determine_provider s = determine_provider (strLower s) := by
  unfold determine_provider
  rw [strLower_idem, ← h]

/-- C8 witness: case-insensitivity at the concrete identifier `"GPT-4"`,
on which the `@cf/` prefix test is unaffected by lowercasing. -/
theorem resolver_case_insensitive_amended_witness :
    determine_provider "GPT-4" = determine_provider (strLower "GPT-4") :=
  resolver_case_insensitive_amended "GPT-4" (by decide)

/- ===== Python values and the result normalizer ===== -/

/-- Shallow embedding of the Python values the normalizer can receive:
`None`, scalars, lists, dicts with string keys, and objects carrying a
`__dict__` attribute mapping. -/
inductive PyVal where
  | vNone : PyVal
  | vStr (s : String) : PyVal
  | vInt (n : Int) : PyVal
  | vBool (b : Bool) : PyVal
  | vList (xs : List PyVal) : PyVal
  | vDict (kvs : List (String × PyVal)) : PyVal
  | vObj (kvs : List (String × PyVal)) : PyVal

/-- A single quote character, used by Python `repr` of strings. -/
def pyQuote : String := String.singleton (Char.ofNat 39)

mutual

/-- Python `repr` of a value. Objects without custom `__repr__` print a
memory address, which is not modellable; no theorem depends on that case. -/
def pyRepr : PyVal → String
  | .vNone => "None"
  | .vStr s => pyQuote ++ s ++ pyQuote
  | .vInt n => toString n
  | .vBool b => cond b "True" "False"
  | .vList xs => "[" ++ String.intercalate ", " (pyReprList xs) ++ "]"
  | .vDict kvs => "\x7b" ++ String.intercalate ", " (pyReprKVs kvs) ++ "\x7d"
  | .vObj _ => "<object>"

def pyReprList : List PyVal → List String
  | [] => []
  | x :: xs => pyRepr x :: pyReprList xs

def pyReprKVs : List (String × PyVal) → List String
  | [] => []
  | (k, v) :: xs => (pyQuote ++ k ++ pyQuote ++ ": " ++ pyRepr v) :: pyReprKVs xs

end

/-- Python `str`: identity on strings, `repr` otherwise. -/
def pyStr : PyVal → String
  | .vStr s => s
  | v => pyRepr v

/-- Embedding of `ExtractionService._normalize_result`
(`api/extraction_service.py` lines 210-217). -/
def normalize_result : PyVal → List (String × PyVal)
  | .vDict kvs => kvs
  | .vObj kvs => kvs
  | v => [("value", v)]

/-- Embedding of `ExtractionService._process_results`
(`api/extraction_service.py` lines 190-208). The final Python branch wraps
the stringified value under the key `"result"`. -/
def process_results : PyVal → List (List (String × PyVal))
  | .vNone => []
  | .vList xs => xs.map normalize_result
  | .vDict kvs => [kvs]
  | .vObj kvs => [kvs]
  | v => [[("result", .vStr (pyStr v))]]

/-- `true` on values that are neither `None`, a list, a dict, nor an
object: the values reaching the normalizer's final fallback branch. -/
def isFallbackValue : PyVal → Bool
  | .vNone => false
  | .vList _ => false
  | .vDict _ => false
  | .vObj _ => false
  | _ => true

/- ===== C4 ===== -/

/-- C4 counterexample: on the raw backend value `42` (neither a record
sequence nor a dict/object) the normalizer returns the single-key record
`{"result": "42"}`, not the claimed `{class: "result", text: "42",
attributes: {}}` record. -/
theorem normalizer_fallback_counterexample :
    process_results (.vInt 42) = [[("result", .vStr "42")]] ∧
    process_results (.vInt 42) ≠
      [[("class", .vStr "result"), ("text", .vStr "42"), ("attributes", .vDict [])]] := by
  refine ⟨rfl, ?_⟩
  simp [process_results, pyStr, pyRepr]

/-- C4 (amended): for every raw backend value that is neither `None`, a
list, a dict, nor an object, normalization returns a one-element sequence
whose single element is the one-key mapping `{"result": stringified
value}` (and a raw value of `None` yields the empty sequence, not a
one-element one). -/
theorem normalizer_fallback_shape (v : PyVal) (h : isFallbackValue v = true) :
    process_results v = [[("result", PyVal.vStr (pyStr v))]] ∧
    process_results PyVal.vNone = [] := by
  refine ⟨?_, rfl⟩
  cases v <;> simp_all [isFallbackValue, process_results, pyStr]

/-- C4 witness: the amended fallback shape evaluated on the concrete raw
value `True`. -/
theorem normalizer_fallback_shape_witness :
    process_results (.vBool true) = [[("result", PyVal.vStr "True")]] := by
  have h := normalizer_fallback_shape (.vBool true) (by decide)
  simpa [pyStr, pyRepr] using h.1

/- ===== Job lifecycle (`ExtractionService.extract_from_text`) ===== -/

/-- The extraction-response model returned by the service
(`api/models.py` `ExtractionResponse`), restricted to the fields the
claims are about; wall-clock fields are not modelled. -/
structure SvcResponse where
  extraction_id : String
  status : String
  results : Option (List (List (String × PyVal)))
  error : Option String

/-- The job record the service keeps in `active_extractions` for one job
identifier. -/
structure JobRecord where
  status : String
  progress : ℚ
  error : Option String
  results : Option (List (List (String × PyVal)))

/-- Everything one run of `extract_from_text` produces: the HTTP response
body, the final tracked job record, the sequence of progress values
written to the record over the job's lifetime, and the result files
written. -/
structure ExtractOutcome where
  response : SvcResponse
  record : JobRecord
  progressTrace : List ℚ
  filesWritten : List String

/-- Embedding of `ExtractionService.extract_from_text`
(`api/extraction_service.py` lines 31-137). The two fallible stages are
parameter preparation (`_prepare_extraction_params`, which can raise, e.g.
on a bad examples payload) and the backend invocation (`_run_extraction`,
which re-raises any library exception); `_process_results` is exception-free.
The record starts at status `processing`, progress `0`; progress is written
to `10` after parameter assembly, `90` after the raw result, `100` at
completion; on any exception the record becomes `failed` with the message
captured and progress written to `0`, and `_save_results` (which writes
`{id}.json` and `{id}.jsonl`) is never reached. -/
def extract_from_text {α : Type} (id : String)
    (prep : Except String α) (run : α → Except String PyVal) : ExtractOutcome :=
  match prep with
  | .error e =>
      { response := { extraction_id := id, status := "failed", results := none, error := some e }
        record := { status := "failed", progress := 0, error := some e, results := none }
        progressTrace := [0, 0]
        filesWritten := [] }
  | .ok p =>
    match run p with
    | .error e =>
        { response := { extraction_id := id, status := "failed", results := none, error := some e }
          record := { status := "failed", progress := 0, error := some e, results := none }
          progressTrace := [0, 10, 0]
          filesWritten := [] }
    | .ok raw =>
        let processed := process_results raw
        { response := { extraction_id := id, status := "completed", results := some processed,
                        error := none }
          record := { status := "completed", progress := 100, error := none,
                      results := some processed }
          progressTrace := [0, 10, 90, 100]
          filesWritten := [id ++ ".json", id ++ ".jsonl"] }

/- ===== C3 ===== -/

/-- C3 (confirmed): failure atomicity. If parameter preparation or the
backend invocation raises with message `e`, the response has status
`failed` and error `e`, the tracked job record becomes `failed` with the
error captured, and no result files are written. -/
theorem extract_failure_atomicity {α : Type} (id : String)
    (prep : Except String α) (run : α → Except String PyVal) (e : String)
    (h : prep = .error e ∨ ∃ p, prep = .ok p ∧ run p = .error e) :
    (extract_from_text id prep run).response.status = "failed" ∧
    (extract_from_text id prep run).response.error = some e ∧
    (extract_from_text id prep run).response.results = none ∧
    (extract_from_text id prep run).record.status = "failed" ∧
    (extract_from_text id prep run).record.error = some e ∧
    (extract_from_text id prep run).filesWritten = [] := by
  rcases h with h | ⟨p, hp, hr⟩
  · subst h
    exact ⟨rfl, rfl, rfl, rfl, rfl, rfl⟩
  · subst hp
    simp [extract_from_text, hr]

/-- C3 witness: failure atomicity evaluated on a job whose parameter
preparation raises with message `"boom"`. -/
theorem extract_failure_atomicity_witness :
    (extract_from_text "job1" (Except.error "boom")
        (fun _ : Unit => Except.ok PyVal.vNone)).response.status = "failed" ∧
    (extract_from_text "job1" (Except.error "boom")
        (fun _ : Unit => Except.ok PyVal.vNone)).record.error = some "boom" ∧
    (extract_from_text "job1" (Except.error "boom")
        (fun _ : Unit => Except.ok PyVal.vNone)).filesWritten = [] := by
  have h := extract_failure_atomicity "job1" (Except.error "boom")
    (fun _ : Unit => Except.ok PyVal.vNone) "boom" (Or.inl rfl)
  exact ⟨h.1, h.2.2.2.2.1, h.2.2.2.2.2⟩

/- ===== C5 ===== -/

/-- A progress sequence is monotone non-decreasing. -/
def progressMonotone (l : List ℚ) : Prop := l.Chain' (· ≤ ·)

/-- C5 counterexample: a job whose backend invocation fails writes the
progress sequence `[0, 10, 0]` — the final failure write resets progress
to `0` after it reached `10`, so the sequence is not monotone
non-decreasing. -/
theorem progress_monotonic_counterexample :
    (extract_from_text "job2" (Except.ok ())
        (fun _ : Unit => Except.error "boom")).progressTrace = [0, 10, 0] ∧
    ¬ progressMonotone (extract_from_text "job2" (Except.ok ())
        (fun _ : Unit => Except.error "boom")).progressTrace := by
  refine ⟨rfl, ?_⟩
  intro h
  have h10 : (10 : ℚ) ≤ 0 := by
    have h2 := (List.chain'_cons.mp h).2
    exact (List.chain'_cons.mp h2).1
  norm_num at h10

/-- C5 (amended): every progress value written over a job's lifetime lies
in `[0, 100]`, and for a job that completes the written sequence
(`0, 10, 90, 100`) is monotone non-decreasing; for a failed job the final
write resets progress to `0`, which can decrease it. -/
theorem progress_bounds_and_success_monotonic {α : Type} (id : String)
    (prep : Except String α) (run : α → Except String PyVal) :
    (∀ q ∈ (extract_from_text id prep run).progressTrace, 0 ≤ q ∧ q ≤ 100) ∧
    ((extract_from_text id prep run).record.status = "completed" →
      progressMonotone (extract_from_text id prep run).progressTrace) := by
  rcases prep with e | p
  · constructor
    · intro q hq
      have hq' : q ∈ ([0, 0] : List ℚ) := hq
      fin_cases hq' <;> norm_num
    · intro h
      simp [extract_from_text] at h
  · rcases hr : run p with e | raw
    · constructor
      · intro q hq
        simp only [extract_from_text, hr] at hq
        fin_cases hq <;> norm_num
      · intro h
        simp [extract_from_text, hr] at h
    · constructor
      · intro q hq
        simp only [extract_from_text, hr] at hq
        fin_cases hq <;> norm_num
      · intro _
        simp only [extract_from_text, hr, progressMonotone]
        refine List.chain'_cons.mpr ⟨by norm_num, ?_⟩
        refine List.chain'_cons.mpr ⟨by norm_num, ?_⟩
        refine List.chain'_cons.mpr ⟨by norm_num, ?_⟩
        exact List.chain'_singleton 100

/-- C5 witness: the bounds and the success-path monotonicity evaluated on
a concrete completing job. -/
theorem progress_bounds_and_success_monotonic_witness :
    ((0 : ℚ) ≤ 10 ∧ (10 : ℚ) ≤ 100) ∧
    progressMonotone (extract_from_text "job3" (Except.ok ())
        (fun _ : Unit => Except.ok PyVal.vNone)).progressTrace := by
  have h := progress_bounds_and_success_monotonic "job3" (Except.ok ())
    (fun _ : Unit => Except.ok PyVal.vNone)
  exact ⟨h.1 10 (by simp [extract_from_text]), h.2 rfl⟩

/- ===== Temperature validation at the request boundary ===== -/

/-- Embedding of the temperature validation generated by
`api/models.py` `ExtractionRequest.temperature`
(`Field(default=0.3, ge=0.0, le=2.0)`, lines 29-34): a request value is
accepted exactly when `0 ≤ t ≤ 2`. -/
def models_temperature_ok (t : ℚ) : Bool :=
  decide (0 ≤ t) && decide (t ≤ 2)

/-- Embedding of the temperature field of the `ExtractionRequest`
declared in `api/main.py` (line 110): the field declares no `ge`/`le`
constraint, so every float value is accepted. -/
def main_temperature_ok (_ : ℚ) : Bool :=
  true

/- ===== C6 ===== -/

/-- C6 counterexample: the claim says a temperature of 2.01 is rejected
in both route implementations' request models, but the request model in
`main.py` declares no bounds and accepts it. -/
theorem main_temperature_unvalidated_counterexample :
    (2 : ℚ) < 201 / 100 ∧ main_temperature_ok (201 / 100) = true := by
  constructor
  · norm_num
  · rfl

/-- C6 (amended): the request model in `api/models.py` validates
temperature against `[0, 2]` exactly as the claim states (0.0 and 2.0
accepted, 2.01 and every out-of-range value rejected), but the request
model in `api/main.py` declares no temperature bounds and accepts every
value. -/
theorem temperature_validation (t : ℚ) :
    models_temperature_ok 0 = true ∧
    models_temperature_ok 2 = true ∧
    models_temperature_ok (201 / 100) = false ∧
    models_temperature_ok (-1) = false ∧
    (models_temperature_ok t = true ↔ 0 ≤ t ∧ t ≤ 2) ∧
    main_temperature_ok t = true := by
  refine ⟨by norm_num [models_temperature_ok], by norm_num [models_temperature_ok],
    by norm_num [models_temperature_ok], by norm_num [models_temperature_ok],
    ?_, rfl⟩
  simp [models_temperature_ok]

/- ===== Edge-inference (cloudflare) backend call ===== -/

/-- One normalized extraction record `{class, text, attributes}` as built
by `main.py`. -/
structure ExtractionRec where
  cls : String
  text : String
  attributes : List (String × String)
  deriving DecidableEq, Repr

/-- The dictionary `extract_with_cloudflare` returns. On the failure path
the raised exception is caught and surfaced as an error message; the
success dictionary carries no error key and the failure dictionary no
`raw_response` key, modelled with `Option`. -/
structure CfResult where
  success : Bool
  extractions : List ExtractionRec
  raw_response : Option String
  error : Option String
  deriving DecidableEq, Repr

/-- Embedding of `extract_with_cloudflare` from `api/main.py`
(lines 198-246). `status_code` is the HTTP status of the edge response;
`responseText` models `result.get("result", {}).get("response", "")`
(missing fields give `""`); `bodyText` is the raw response body used in
the non-200 error message. The Python truthiness test `if extracted_text:`
appends the single record only for a non-empty string. -/
def extract_with_cloudflare (status_code : Nat) (responseText : String)
    (bodyText : String) : CfResult :=
  if status_code == 200 then
    { success := true
      extractions :=
        if responseText == "" then []
        else [{ cls := "extracted_data", text := responseText, attributes := [] }]
      raw_response := some responseText
      error := none }
  else
    { success := false
      extractions := []
      raw_response := none
      error := some ("Cloudflare API error: " ++ toString status_code ++ " - " ++ bodyText) }

/- ===== C7 ===== -/

/-- C7 counterexample: a 200 edge response whose `result.response` text is
empty (or missing) yields `success = true` with an empty extraction list,
not the claimed one-element list. -/
theorem cloudflare_empty_response_counterexample :
    (extract_with_cloudflare 200 "" "ok").success = true ∧
    (extract_with_cloudflare 200 "" "ok").extractions = [] ∧
    (extract_with_cloudflare 200 "" "ok").extractions ≠
      [{ cls := "extracted_data", text := "", attributes := [] }] := by
  decide

/-- C7 (amended): every 200 edge-inference response yields `success = true`,
and the extractions are exactly one record with the fixed class label
`extracted_data`, the body's `result.response` text, and empty attributes
whenever that text is non-empty — when the text is empty or missing the
extraction list is empty instead. -/
theorem cloudflare_success_wrapping (responseText bodyText : String)
    (h : responseText ≠ "") :
    (extract_with_cloudflare 200 responseText bodyText).success = true ∧
    (extract_with_cloudflare 200 responseText bodyText).extractions =
      [{ cls := "extracted_data", text := responseText, attributes := [] }] ∧
    (extract_with_cloudflare 200 "" bodyText).extractions = [] := by
  refine ⟨rfl, ?_, rfl⟩
  simp [extract_with_cloudflare, h]

/-- C7 witness: the amended success wrapping evaluated on a concrete
200 response carrying the text `"Maria, 35, doctor"`. -/
theorem cloudflare_success_wrapping_witness :
    (extract_with_cloudflare 200 "Maria, 35, doctor" "body").extractions =
      [{ cls := "extracted_data", text := "Maria, 35, doctor", attributes := [] }] :=
  (cloudflare_success_wrapping "Maria, 35, doctor" "body" (by decide)).2.1

/- ===== Substring lemmas ===== -/

theorem charsStartWith_refl (l : List Char) : charsStartWith l l = true := by
  induction l with
  | nil => rfl
  | cons c cs ih => simp [charsStartWith, ih]

theorem charsContain_self (l : List Char) : charsContain l l = true := by
  cases l with
  | nil => rfl
  | cons c cs => simp [charsContain, charsStartWith_refl]

theorem charsContain_append_left (pre l : List Char) :
    charsContain l (pre ++ l) = true := by
  induction pre with
  | nil => simpa using charsContain_self l
  | cons c cs ih =>
    cases h : cs ++ l with
    | nil =>
      rw [h] at ih
      simp [charsContain, h, ih]
    | cons d ds => simp [charsContain, ← h, ih]

/-- A string always contains its own suffix (Python `b in a + b`). -/
theorem strContains_append_right (a b : String) : strContains (a ++ b) b = true := by
  have : (a ++ b).data = a.data ++ b.data := by
    cases a; cases b; rfl
  simp [strContains, this, charsContain_append_left]

/- ===== The main.py extraction wrapper ===== -/

/-- The raw extraction objects the extraction library returns
(`result.extractions` in `main.py`): class, text, and a possibly-absent
attributes mapping. -/
structure RawExtraction where
  extraction_class : String
  extraction_text : String
  attributes : Option (List (String × String))
  deriving DecidableEq, Repr

/-- The projection `main.py` applies to each library extraction
(`extraction.attributes or {}` replaces an absent mapping with the empty
one). -/
def projectExtraction (e : RawExtraction) : ExtractionRec :=
  { cls := e.extraction_class, text := e.extraction_text,
    attributes := e.attributes.getD [] }

/-- Outcome of the underlying `lx.extract` library call as observed by
`extract_with_langextract`: a result object carrying extraction records,
an `asyncio.TimeoutError`, or any other exception with its message. -/
inductive LibOutcome where
  | ok (extractions : List RawExtraction) : LibOutcome
  | timeout : LibOutcome
  | exn (msg : String) : LibOutcome

/-- The result dictionary of `extract_with_langextract`. Keys absent from
some branches (`error`, `raw_response`) are modelled with `Option`. -/
structure LxResult where
  success : Bool
  extractions : List ExtractionRec
  model_used : String
  provider : String
  processing_time : ℚ
  error : Option String
  raw_response : Option String
  deriving DecidableEq, Repr

/-- Embedding of `extract_with_langextract` from `api/main.py`
(lines 134-196), paired with the list of result files the call writes
(`main.py` writes none on any path). For a cloudflare model the call is
delegated to `extract_with_cloudflare` and its dictionary is merged with
the model/provider/processing-time fields; otherwise the library outcome
is mapped branch by branch, with `asyncio.TimeoutError` producing the
message `"Request timed out after {LLM_TIMEOUT} seconds"` and processing
time `LLM_TIMEOUT`. -/
def extract_with_langextract (model_id : String) (llmTimeout : Nat) (elapsed : ℚ)
    (lib : LibOutcome) (cf : CfResult) : LxResult × List String :=
  if determine_provider model_id == "cloudflare" then
    ({ success := cf.success, extractions := cf.extractions, model_used := model_id,
       provider := "cloudflare", processing_time := elapsed, error := cf.error,
       raw_response := cf.raw_response }, [])
  else
    match lib with
    | .ok exts =>
        ({ success := true, extractions := exts.map projectExtraction,
           model_used := model_id, provider := determine_provider model_id,
           processing_time := elapsed, error := none, raw_response := none }, [])
    | .timeout =>
        ({ success := false, extractions := [], model_used := model_id,
           provider := determine_provider model_id,
           processing_time := (llmTimeout : ℚ),
           error := some ("Request timed out after " ++ toString llmTimeout ++ " seconds"),
           raw_response := none }, [])
    | .exn msg =>
        ({ success := false, extractions := [], model_used := model_id,
           provider := determine_provider model_id, processing_time := 0,
           error := some msg, raw_response := none }, [])

/- ===== C9 ===== -/

/-- C9 (confirmed): for a non-edge provider, a library timeout yields
`success = false`, an empty extraction list, an error message containing
the configured `LLM_TIMEOUT` duration in seconds, and no result files
written. -/
theorem timeout_outcome (model_id : String) (llmTimeout : Nat) (elapsed : ℚ)
    (cf : CfResult) (h : determine_provider model_id ≠ "cloudflare") :
    (extract_with_langextract model_id llmTimeout elapsed .timeout cf).1.success = false ∧
    (extract_with_langextract model_id llmTimeout elapsed .timeout cf).1.extractions = [] ∧
    (extract_with_langextract model_id llmTimeout elapsed .timeout cf).1.error =
      some ("Request timed out after " ++ toString llmTimeout ++ " seconds") ∧
    (∀ msg,
      (extract_with_langextract model_id llmTimeout elapsed .timeout cf).1.error = some msg →
      strContains msg (toString llmTimeout ++ " seconds") = true) ∧
    (extract_with_langextract model_id llmTimeout elapsed .timeout cf).2 = [] := by
  have hne : (determine_provider model_id == "cloudflare") = false := by
    simpa using h
  simp only [extract_with_langextract, hne, Bool.false_eq_true, if_false]
  refine ⟨trivial, trivial, trivial, ?_, trivial⟩
  intro msg hmsg
  have hm : msg = "Request timed out after " ++ (toString llmTimeout ++ " seconds") := by
    have h2 := Option.some.inj hmsg
    rw [← h2]
    simp [String.append_assoc]
  rw [hm]
  exact strContains_append_right _ _

/-- C9 witness: the timeout outcome evaluated for the local model
`llama3.2:1b` with the default `LLM_TIMEOUT` of 180 seconds. -/
theorem timeout_outcome_witness :
    (extract_with_langextract "llama3.2:1b" 180 0 .timeout
        { success := false, extractions := [], raw_response := none, error := none }).1.error =
      some "Request timed out after 180 seconds" := by
  have h := timeout_outcome "llama3.2:1b" 180 0
    { success := false, extractions := [], raw_response := none, error := none }
    (by decide)
  simpa using h.2.2.1

/- ===== Job status polling ===== -/

/-- The per-job entry the service keeps in `active_extractions`, as read
by the status endpoint: status, progress, captured error, and the
creation/completion timestamps (modelled as abstract instants). -/
structure JobInfo where
  status : String
  progress : ℚ
  error : Option String
  created_at : Nat
  completed_at : Option Nat
  deriving DecidableEq, Repr

/-- The `ExtractionStatus` response model (`api/models.py` lines 129-139). -/
structure ExtractionStatus where
  extraction_id : String
  status : String
  progress : ℚ
  message : Option String
  created_at : Nat
  updated_at : Nat
  completed_at : Option Nat
  results_available : Bool
  download_urls : Option (List (String × String))
  deriving DecidableEq, Repr

/-- The snapshot `get_extraction_status` builds for a tracked job:
`results_available` is `status == "completed"`, and exactly then the two
download URLs are attached. -/
def mkSnapshot (id : String) (info : JobInfo) : ExtractionStatus :=
  { extraction_id := id
    status := info.status
    progress := info.progress
    message := info.error
    created_at := info.created_at
    updated_at := info.completed_at.getD info.created_at
    completed_at := info.completed_at
    results_available := info.status == "completed"
    download_urls :=
      if info.status == "completed" then
        some [("json", "/extract/" ++ id ++ "/download?format=json"),
              ("jsonl", "/extract/" ++ id ++ "/download?format=jsonl")]
      else none }

/-- Embedding of `ExtractionService.get_extraction_status`
(`api/extraction_service.py` lines 261-287). The in-memory tracker is an
association list from job identifier to job entry; the operation returns
the snapshot (or `none` for an unknown identifier) together with the
tracker it leaves behind — a `dict.get`-based read that never mutates. -/
def get_extraction_status (tracker : List (String × JobInfo)) (id : String) :
    Option ExtractionStatus × List (String × JobInfo) :=
  match List.lookup id tracker with
  | none => (none, tracker)
  | some info => (some (mkSnapshot id info), tracker)

/- ===== C10 ===== -/

/-- C10 (confirmed): every status snapshot satisfies
`results_available = (status == "completed")`; `download_urls` is present
exactly when results are available and then holds exactly the json and
jsonl download URLs for the identifier; an identifier not in the tracker
yields no snapshot; and the tracker is never mutated by the read. -/
theorem status_snapshot_consistency (tracker : List (String × JobInfo)) (id : String) :
    (get_extraction_status tracker id).2 = tracker ∧
    (List.lookup id tracker = none → (get_extraction_status tracker id).1 = none) ∧
    (∀ s, (get_extraction_status tracker id).1 = some s →
      s.extraction_id = id ∧
      s.results_available = (s.status == "completed") ∧
      s.download_urls.isSome = s.results_available ∧
      (s.results_available = true →
        s.download_urls =
          some [("json", "/extract/" ++ id ++ "/download?format=json"),
                ("jsonl", "/extract/" ++ id ++ "/download?format=jsonl")])) := by
  rcases hl : List.lookup id tracker with _ | info
  · refine ⟨?_, fun _ => ?_, fun s hs => ?_⟩
    · simp [get_extraction_status, hl]
    · simp [get_extraction_status, hl]
    · simp [get_extraction_status, hl] at hs
  · refine ⟨?_, fun hnone => ?_, fun s hs => ?_⟩
    · simp [get_extraction_status, hl]
    · simp [hl] at hnone
    · have hval : (get_extraction_status tracker id).1 = some (mkSnapshot id info) := by
        simp [get_extraction_status, hl]
      have hseq : s = mkSnapshot id info := by
        rw [hval] at hs
        exact (Option.some.inj hs).symm
      subst hseq
      refine ⟨rfl, rfl, ?_, ?_⟩
      · by_cases hc : (info.status == "completed") = true
        · simp [mkSnapshot, hc]
        · rw [Bool.not_eq_true] at hc
          simp [mkSnapshot, hc]
      · intro hra
        have hc : (info.status == "completed") = true := hra
        simp [mkSnapshot, hc]

/-- C10 witness: the snapshot consistency evaluated on a concrete tracker
holding one completed job. -/
theorem status_snapshot_consistency_witness :
    (get_extraction_status
        [("a1", { status := "completed", progress := 100, error := none,
                  created_at := 0, completed_at := some 5 })] "a1").2 =
      [("a1", { status := "completed", progress := 100, error := none,
                created_at := 0, completed_at := some 5 })] ∧
    ∃ s, (get_extraction_status
        [("a1", { status := "completed", progress := 100, error := none,
                  created_at := 0, completed_at := some 5 })] "a1").1 = some s ∧
      s.download_urls =
        some [("json", "/extract/a1/download?format=json"),
              ("jsonl", "/extract/a1/download?format=jsonl")] := by
  have h := status_snapshot_consistency
    [("a1", { status := "completed", progress := 100, error := none,
              created_at := 0, completed_at := some 5 })] "a1"
  have hs : (get_extraction_status
      [("a1", { status := "completed", progress := 100, error := none,
                created_at := 0, completed_at := some 5 })] "a1").1 =
      some (mkSnapshot "a1"
        { status := "completed", progress := 100, error := none,
          created_at := 0, completed_at := some 5 }) := rfl
  have hurls := (h.2.2 _ hs).2.2.2 rfl
  exact ⟨h.1, _, hs, hurls⟩
